import Mathlib

/-!
Shallow embedding of `registry/app/api/controller/metadata/artifact_mapper.go`
(artifact response mapper of the harness registry) and proofs about it.

Go strings are modelled as `List Char`; Go slices as `List`; nil-able Go
pointers to slices as `Option (List _)`.  Helper functions that live in other
files of the repository (pull-command and download-command formatters, size and
time formatting, the URL provider) are opaque collaborators here, passed in as
a record of functions, exactly as the mapper receives the URL provider.
-/

namespace ArtifactMapper

/-- Go strings, modelled as lists of characters. -/
abbrev GoStr := List Char

/-- A Go string literal. -/
def str (s : String) : GoStr := s.toList

/-- `strings.Replace(s, old, new, 1)`: replace the first (leftmost,
non-overlapping) occurrence of `old` in `s` by `new`; a no-op when `old`
does not occur.  For an empty `old`, Go prepends `new`, which the `[]`
shape of `List.isPrefixOf` reproduces here. -/
def replaceFirst (old new : GoStr) : GoStr → GoStr
  | [] => if old.isPrefixOf ([] : GoStr) then new else []
  | c :: rest =>
    if old.isPrefixOf (c :: rest) then new ++ (c :: rest).drop old.length
    else c :: replaceFirst old new rest

/-- Recursion core of `replaceAll`; the fuel argument only bounds the
recursion depth and is immaterial as soon as it is at least the length of
the string (each step consumes at least one character). -/
def replaceAllAux (old new : GoStr) : Nat → GoStr → GoStr
  | 0, s => s
  | _ + 1, [] => []
  | fuel + 1, c :: rest =>
    if old ≠ [] ∧ old.isPrefixOf (c :: rest) then
      new ++ replaceAllAux old new fuel ((c :: rest).drop old.length)
    else
      c :: replaceAllAux old new fuel rest

/-- `strings.ReplaceAll(s, old, new)`: replace every leftmost,
non-overlapping occurrence of `old` in `s` by `new`.  The mapper only ever
calls this with the single-character patterns "." and ":"; the guard
`old ≠ []` (Go instead interleaves `new` for an empty pattern) is never hit
by those calls. -/
def replaceAll (old new s : GoStr) : GoStr :=
  replaceAllAux old new s.length s

/-- `fmt.Sprint` on a Go integer: its decimal rendering. -/
def fmtSprintInt (n : Int) : GoStr := str (toString n)

/-! ### The package-type enum

Modelled from the spec: the package type is a closed enum of exactly four
string values DOCKER, GENERIC, HELM, MAVEN.  The string constants live in the
generated OpenAPI contracts package (`artifactapi.PackageTypeDOCKER` etc.),
outside this repository slice; the Go `PackageType` is a string type, modelled
here as `GoStr`. -/

def PackageTypeDOCKER : GoStr := str "DOCKER"

def PackageTypeGENERIC : GoStr := str "GENERIC"

def PackageTypeHELM : GoStr := str "HELM"

def PackageTypeMAVEN : GoStr := str "MAVEN"

/-- `artifactapi.StatusSUCCESS`, the fixed success tag. -/
def StatusSUCCESS : GoStr := str "SUCCESS"

/-- `toPackageType`: convert a raw string into the closed package-type enum,
or fail (Go returns `("", errors.New("invalid package type"))`). -/
def toPackageType (packageTypeStr : GoStr) : Except GoStr GoStr :=
  if packageTypeStr = PackageTypeDOCKER then .ok PackageTypeDOCKER
  else if packageTypeStr = PackageTypeGENERIC then .ok PackageTypeGENERIC
  else if packageTypeStr = PackageTypeHELM then .ok PackageTypeHELM
  else if packageTypeStr = PackageTypeMAVEN then .ok PackageTypeMAVEN
  else .error (str "invalid package type")

/-! ### Storage-layer records (`registry/types`), fields the mapper reads -/

namespace types

/-- `types.ArtifactMetadata`. -/
structure ArtifactMetadata where
  repoName : GoStr
  name : GoStr
  version : GoStr
  latestVersion : GoStr
  packageType : GoStr
  labels : List GoStr
  downloadCount : Int
  createdAt : Int
  modifiedAt : Int
  deriving DecidableEq

/-- `types.TagMetadata`. -/
structure TagMetadata where
  name : GoStr
  size : GoStr
  digestCount : Int
  downloadCount : Int
  modifiedAt : Int
  packageType : GoStr
  deriving DecidableEq

/-- `types.NonOCIArtifactMetadata`. -/
structure NonOCIArtifactMetadata where
  name : GoStr
  size : GoStr
  fileCount : Int
  downloadCount : Int
  modifiedAt : Int
  packageType : GoStr
  deriving DecidableEq

/-- `types.FileNodeMetadata`. -/
structure FileNodeMetadata where
  path : GoStr
  size : Int
  sha512 : GoStr
  sha256 : GoStr
  sha1 : GoStr
  md5 : GoStr
  createdAt : Int
  deriving DecidableEq

end types

/-! ### Response-contract records (`artifactapi`), fields the mapper writes.
Pointer-valued response fields always receive a value here, so they are
modelled as plain fields. -/

namespace artifactapi

/-- `artifactapi.ArtifactMetadata`. -/
structure ArtifactMetadata where
  registryIdentifier : GoStr
  name : GoStr
  version : GoStr
  labels : List GoStr
  lastModified : Int
  packageType : GoStr
  downloadsCount : Int
  pullCommand : GoStr
  deriving DecidableEq

/-- `artifactapi.RegistryArtifactMetadata`. -/
structure RegistryArtifactMetadata where
  registryIdentifier : GoStr
  name : GoStr
  latestVersion : GoStr
  labels : List GoStr
  lastModified : Int
  packageType : GoStr
  downloadsCount : Int
  deriving DecidableEq

/-- `artifactapi.ArtifactVersionMetadata`; `digestCount` and `fileCount` are
optional in the contract and only one mapper fills each. -/
structure ArtifactVersionMetadata where
  packageType : GoStr
  name : GoStr
  size : GoStr
  lastModified : Int
  digestCount : Option Int
  fileCount : Option Int
  pullCommand : GoStr
  downloadsCount : Int
  deriving DecidableEq

/-- `artifactapi.FileDetail`. -/
structure FileDetail where
  checksums : List GoStr
  size : GoStr
  createdAt : GoStr
  name : GoStr
  downloadCommand : GoStr
  deriving DecidableEq

/-- `artifactapi.ListArtifact`. -/
structure ListArtifact where
  itemCount : Nat
  pageCount : Nat
  pageIndex : Nat
  pageSize : Nat
  artifacts : List ArtifactMetadata
  deriving DecidableEq

/-- `artifactapi.ListArtifactResponseJSONResponse`. -/
structure ListArtifactResponseJSONResponse where
  data : ListArtifact
  status : GoStr
  deriving DecidableEq

/-- `artifactapi.ListRegistryArtifact`. -/
structure ListRegistryArtifact where
  itemCount : Nat
  pageCount : Nat
  pageIndex : Nat
  pageSize : Nat
  artifacts : List RegistryArtifactMetadata
  deriving DecidableEq

/-- `artifactapi.ListRegistryArtifactResponseJSONResponse`. -/
structure ListRegistryArtifactResponseJSONResponse where
  data : ListRegistryArtifact
  status : GoStr
  deriving DecidableEq

/-- `artifactapi.FileDetailResponseJSONResponse` (pagination fields sit
directly on the response). -/
structure FileDetailResponseJSONResponse where
  itemCount : Nat
  pageCount : Nat
  pageIndex : Nat
  pageSize : Nat
  files : List FileDetail
  status : GoStr
  deriving DecidableEq

/-- `artifactapi.ListArtifactLabel`. -/
structure ListArtifactLabel where
  itemCount : Nat
  pageCount : Nat
  pageIndex : Nat
  pageSize : Nat
  labels : List GoStr
  deriving DecidableEq

/-- `artifactapi.ListArtifactLabelResponseJSONResponse`. -/
structure ListArtifactLabelResponseJSONResponse where
  data : ListArtifactLabel
  status : GoStr
  deriving DecidableEq

/-- `artifactapi.ListArtifactVersion`. -/
structure ListArtifactVersion where
  itemCount : Nat
  pageCount : Nat
  pageIndex : Nat
  pageSize : Nat
  artifactVersions : List ArtifactVersionMetadata
  deriving DecidableEq

/-- `artifactapi.ListArtifactVersionResponseJSONResponse`. -/
structure ListArtifactVersionResponseJSONResponse where
  data : ListArtifactVersion
  status : GoStr
  deriving DecidableEq

end artifactapi

/-- The helper functions the mapper calls but that live in other files of the
repository (`GetPullCommand`, `GetTimeInMs`, `GetSize`, `GetImageSize`, the
two download-command formatters) together with the `url.Provider`
collaborator, all opaque to this file and therefore taken as parameters.
`registryURL` receives the variadic segment list of
`urlProvider.RegistryURL(ctx, segs...)`. -/
structure Helpers where
  getTimeInMs : Int → Int
  getSize : Int → GoStr
  getImageSize : GoStr → GoStr
  getPullCommand : GoStr → GoStr → GoStr → GoStr → GoStr
  genericDownloadCommand : GoStr → GoStr → GoStr → GoStr → GoStr
  mavenDownloadCommand : GoStr → GoStr → GoStr → GoStr → GoStr
  registryURL : List GoStr → GoStr

/-! ### The mapper functions of `artifact_mapper.go` -/

/-- `mapToArtifactMetadata`. -/
def mapToArtifactMetadata (H : Helpers) (artifact : types.ArtifactMetadata)
    (registryURL : GoStr) : artifactapi.ArtifactMetadata :=
  let lastModified := H.getTimeInMs artifact.modifiedAt
  let packageType := artifact.packageType
  let pullCommand := H.getPullCommand artifact.name artifact.version packageType registryURL
  { registryIdentifier := artifact.repoName
    name := artifact.name
    version := artifact.version
    labels := artifact.labels
    lastModified := lastModified
    packageType := packageType
    downloadsCount := artifact.downloadCount
    pullCommand := pullCommand }

/-- `mapToRegistryArtifactMetadata`. -/
def mapToRegistryArtifactMetadata (H : Helpers)
    (artifact : types.ArtifactMetadata) : artifactapi.RegistryArtifactMetadata :=
  let lastModified := H.getTimeInMs artifact.modifiedAt
  let packageType := artifact.packageType
  { registryIdentifier := artifact.repoName
    name := artifact.name
    latestVersion := artifact.latestVersion
    labels := artifact.labels
    lastModified := lastModified
    packageType := packageType
    downloadsCount := artifact.downloadCount }

/-- `GetArtifactMetadata` (the `ctx` argument only feeds the URL provider and
logging, so it is dropped).  The Go loop first requests the plain repository
URL and, for a GENERIC artifact, overwrites it with the URL carrying the
extra "generic" segment; the mapped entry uses the final value. -/
def GetArtifactMetadata (H : Helpers) (artifacts : List types.ArtifactMetadata)
    (rootIdentifier : GoStr) : List artifactapi.ArtifactMetadata :=
  match artifacts with
  | [] => []
  | artifact :: rest =>
    let registryURL := H.registryURL [rootIdentifier, artifact.repoName]
    let registryURL :=
      if artifact.packageType = PackageTypeGENERIC then
        H.registryURL [rootIdentifier, str "generic", artifact.repoName]
      else registryURL
    mapToArtifactMetadata H artifact registryURL :: GetArtifactMetadata H rest rootIdentifier

/-- `GetRegistryArtifactMetadata`. -/
def GetRegistryArtifactMetadata (H : Helpers)
    (artifacts : List types.ArtifactMetadata) : List artifactapi.RegistryArtifactMetadata :=
  match artifacts with
  | [] => []
  | artifact :: rest =>
    mapToRegistryArtifactMetadata H artifact :: GetRegistryArtifactMetadata H rest

/-- `GetTagMetadata` (receives `*[]types.TagMetadata` and immediately
dereferences it; the pointed-to slice is taken here).  A tag whose package
type fails `toPackageType` is logged and skipped (`continue`); the log call
is a side effect outside this embedding. -/
def GetTagMetadata (H : Helpers) (tags : List types.TagMetadata)
    (image : GoStr) (registryURL : GoStr) : List artifactapi.ArtifactVersionMetadata :=
  match tags with
  | [] => []
  | tag :: rest =>
    let modifiedAt := H.getTimeInMs tag.modifiedAt
    let size := H.getImageSize tag.size
    let digestCount := tag.digestCount
    let command := H.getPullCommand image tag.name tag.packageType registryURL
    let downloadCount := tag.downloadCount
    match toPackageType tag.packageType with
    | .error _ => GetTagMetadata H rest image registryURL
    | .ok packageType =>
      { packageType := packageType
        name := tag.name
        size := size
        lastModified := modifiedAt
        digestCount := some digestCount
        fileCount := none
        pullCommand := command
        downloadsCount := downloadCount } :: GetTagMetadata H rest image registryURL

/-- `GetNonOCIArtifactMetadata`, same skip-on-invalid-package-type shape as
`GetTagMetadata` but carrying a file count instead of a digest count. -/
def GetNonOCIArtifactMetadata (H : Helpers) (tags : List types.NonOCIArtifactMetadata)
    (image : GoStr) (registryURL : GoStr) : List artifactapi.ArtifactVersionMetadata :=
  match tags with
  | [] => []
  | tag :: rest =>
    let modifiedAt := H.getTimeInMs tag.modifiedAt
    let size := H.getImageSize tag.size
    let command := H.getPullCommand image tag.name tag.packageType registryURL
    let downloadCount := tag.downloadCount
    match toPackageType tag.packageType with
    | .error _ => GetNonOCIArtifactMetadata H rest image registryURL
    | .ok packageType =>
      let fileCount := tag.fileCount
      { packageType := packageType
        name := tag.name
        size := size
        lastModified := modifiedAt
        digestCount := none
        fileCount := some fileCount
        pullCommand := command
        downloadsCount := downloadCount } :: GetNonOCIArtifactMetadata H rest image registryURL

/-- `getCheckSums`. -/
def getCheckSums (file : types.FileNodeMetadata) : List GoStr :=
  [ str "SHA-512: " ++ file.sha512
  , str "SHA-256: " ++ file.sha256
  , str "SHA-1: " ++ file.sha1
  , str "MD5: " ++ file.md5 ]

/-- `GetArtifactFilesMetadata`.  The Go loop mutates the `artifactName`
parameter inside the MAVEN branch, so the (possibly rewritten) name is
threaded through the recursion exactly as the loop carries it. -/
def GetArtifactFilesMetadata (H : Helpers) (metadata : List types.FileNodeMetadata)
    (registryURL : GoStr) (artifactName : GoStr) (version : GoStr)
    (packageType : GoStr) : List artifactapi.FileDetail :=
  match metadata with
  | [] => []
  | file :: rest =>
    let filePathPre := str "/" ++ artifactName ++ str "/" ++ version ++ str "/"
    let filename := replaceFirst filePathPre (str "") file.path
    if packageType = PackageTypeGENERIC then
      let downloadCommand := H.genericDownloadCommand registryURL artifactName version filename
      { checksums := getCheckSums file
        size := H.getSize file.size
        createdAt := fmtSprintInt file.createdAt
        name := filename
        downloadCommand := downloadCommand }
        :: GetArtifactFilesMetadata H rest registryURL artifactName version packageType
    else if packageType = PackageTypeMAVEN then
      let artifactName := replaceAll (str ".") (str "/") artifactName
      let artifactName := replaceAll (str ":") (str "/") artifactName
      let filePathPre := str "/" ++ artifactName ++ str "/" ++ version ++ str "/"
      let filename := replaceFirst filePathPre (str "") file.path
      let downloadCommand := H.mavenDownloadCommand registryURL artifactName version filename
      { checksums := getCheckSums file
        size := H.getSize file.size
        createdAt := fmtSprintInt file.createdAt
        name := filename
        downloadCommand := downloadCommand }
        :: GetArtifactFilesMetadata H rest registryURL artifactName version packageType
    else
      { checksums := getCheckSums file
        size := H.getSize file.size
        createdAt := fmtSprintInt file.createdAt
        name := filename
        downloadCommand := str "" }
        :: GetArtifactFilesMetadata H rest registryURL artifactName version packageType

/-- Modelled from the spec: `GetPageCount` lives in another file of this
repository; the spec fixes `page_count = ceil(item_count / page_size)`
whenever `page_size > 0`, realised here by integer ceiling division over
the non-negative counts the envelopes carry. -/
def GetPageCount (count : Nat) (pageSize : Nat) : Nat :=
  (count + pageSize - 1) / pageSize

/-- `GetAllArtifactResponse`; a nil `artifacts` pointer (here `none`) yields
an empty item list, not a fault. -/
def GetAllArtifactResponse (H : Helpers) (artifacts : Option (List types.ArtifactMetadata))
    (count : Nat) (pageNumber : Nat) (pageSize : Nat)
    (rootIdentifier : GoStr) : artifactapi.ListArtifactResponseJSONResponse :=
  let artifactMetadataList :=
    match artifacts with
    | none => []
    | some arts => GetArtifactMetadata H arts rootIdentifier
  let pageCount := GetPageCount count pageSize
  { data :=
      { itemCount := count
        pageCount := pageCount
        pageIndex := pageNumber
        pageSize := pageSize
        artifacts := artifactMetadataList }
    status := StatusSUCCESS }

/-- `GetAllArtifactFilesResponse`; a nil `files` pointer yields an empty
file list. -/
def GetAllArtifactFilesResponse (H : Helpers) (files : Option (List types.FileNodeMetadata))
    (count : Nat) (pageNumber : Nat) (pageSize : Nat) (registryURL : GoStr)
    (artifactName : GoStr) (version : GoStr)
    (packageType : GoStr) : artifactapi.FileDetailResponseJSONResponse :=
  let fileMetadataList :=
    match files with
    | none => []
    | some fs => GetArtifactFilesMetadata H fs registryURL artifactName version packageType
  let pageCount := GetPageCount count pageSize
  { itemCount := count
    pageCount := pageCount
    pageIndex := pageNumber
    pageSize := pageSize
    files := fileMetadataList
    status := str "SUCCESS" }

/-- `GetAllArtifactByRegistryResponse`; a nil `artifacts` pointer yields an
empty item list. -/
def GetAllArtifactByRegistryResponse (H : Helpers)
    (artifacts : Option (List types.ArtifactMetadata)) (count : Nat)
    (pageNumber : Nat) (pageSize : Nat) : artifactapi.ListRegistryArtifactResponseJSONResponse :=
  let artifactMetadataList :=
    match artifacts with
    | none => []
    | some arts => GetRegistryArtifactMetadata H arts
  let pageCount := GetPageCount count pageSize
  { data :=
      { itemCount := count
        pageCount := pageCount
        pageIndex := pageNumber
        pageSize := pageSize
        artifacts := artifactMetadataList }
    status := StatusSUCCESS }

/-- `GetAllArtifactLabelsResponse` (its label pointer is dereferenced
unconditionally in Go, so the pointed-to slice is taken). -/
def GetAllArtifactLabelsResponse (artifactLabels : List GoStr) (count : Nat)
    (pageNumber : Nat) (pageSize : Nat) : artifactapi.ListArtifactLabelResponseJSONResponse :=
  let pageCount := GetPageCount count pageSize
  { data :=
      { itemCount := count
        pageCount := pageCount
        pageIndex := pageNumber
        pageSize := pageSize
        labels := artifactLabels }
    status := StatusSUCCESS }

/-- `GetAllArtifactVersionResponse`. -/
def GetAllArtifactVersionResponse (H : Helpers) (tags : List types.TagMetadata)
    (image : GoStr) (count : Nat) (pageNumber : Nat) (pageSize : Nat)
    (registryURL : GoStr) : artifactapi.ListArtifactVersionResponseJSONResponse :=
  let artifactVersionMetadataList := GetTagMetadata H tags image registryURL
  let pageCount := GetPageCount count pageSize
  { data :=
      { itemCount := count
        pageCount := pageCount
        pageIndex := pageNumber
        pageSize := pageSize
        artifactVersions := artifactVersionMetadataList }
    status := StatusSUCCESS }

/-- `GetNonOCIAllArtifactVersionResponse`. -/
def GetNonOCIAllArtifactVersionResponse (H : Helpers)
    (artifacts : List types.NonOCIArtifactMetadata) (image : GoStr) (count : Nat)
    (pageNumber : Nat) (pageSize : Nat)
    (registryURL : GoStr) : artifactapi.ListArtifactVersionResponseJSONResponse :=
  let artifactVersionMetadataList := GetNonOCIArtifactMetadata H artifacts image registryURL
  let pageCount := GetPageCount count pageSize
  { data :=
      { itemCount := count
        pageCount := pageCount
        pageIndex := pageNumber
        pageSize := pageSize
        artifactVersions := artifactVersionMetadataList }
    status := StatusSUCCESS }

/-! ### Derived forms and lemmas about the embedded code -/

/-- `strings.Contains(s, pat)`: does `pat` occur as a contiguous substring
of `s`? -/
def containsSub (pat : GoStr) : GoStr → Bool
  | [] => pat.isPrefixOf ([] : GoStr)
  | c :: rest => pat.isPrefixOf (c :: rest) || containsSub pat rest

/-- The character-level effect of the Maven name rewrite. -/
def mavenChar (x : Char) : Char :=
  if x = '.' then '/' else if x = ':' then '/' else x

/-- The Maven name rewrite of `GetArtifactFilesMetadata`: first every "."
becomes "/", then every ":" becomes "/". -/
def mavenRewrite (artifactName : GoStr) : GoStr :=
  replaceAll (str ":") (str "/") (replaceAll (str ".") (str "/") artifactName)

/-- The path prefix `"/" + artifactName + "/" + version + "/"` the file
mapper strips. -/
def filePathPrefixFor (artifactName version : GoStr) : GoStr :=
  str "/" ++ artifactName ++ str "/" ++ version ++ str "/"

/-- The stripped filename of one file record. -/
def strippedName (artifactName version : GoStr) (file : types.FileNodeMetadata) : GoStr :=
  replaceFirst (filePathPrefixFor artifactName version) (str "") file.path

/-- The file detail produced for one record when the package type is not
MAVEN (the name is used as given; only GENERIC gets a download command). -/
def plainFileDetail (H : Helpers) (registryURL artifactName version packageType : GoStr)
    (file : types.FileNodeMetadata) : artifactapi.FileDetail :=
  let filename := strippedName artifactName version file
  { checksums := getCheckSums file
    size := H.getSize file.size
    createdAt := fmtSprintInt file.createdAt
    name := filename
    downloadCommand :=
      if packageType = PackageTypeGENERIC then
        H.genericDownloadCommand registryURL artifactName version filename
      else str "" }

/-- The file detail produced for one record in the MAVEN branch, taking the
already-rewritten artifact name. -/
def mavenFileDetail (H : Helpers) (registryURL rewrittenName version : GoStr)
    (file : types.FileNodeMetadata) : artifactapi.FileDetail :=
  let filename := strippedName rewrittenName version file
  { checksums := getCheckSums file
    size := H.getSize file.size
    createdAt := fmtSprintInt file.createdAt
    name := filename
    downloadCommand := H.mavenDownloadCommand registryURL rewrittenName version filename }

/-- The registry URL `GetArtifactMetadata` ends up using for one artifact:
the "generic"-segment URL exactly for a GENERIC artifact, else the plain
repository URL. -/
def resolvedRegistryURL (H : Helpers) (rootIdentifier : GoStr)
    (artifact : types.ArtifactMetadata) : GoStr :=
  if artifact.packageType = PackageTypeGENERIC then
    H.registryURL [rootIdentifier, str "generic", artifact.repoName]
  else
    H.registryURL [rootIdentifier, artifact.repoName]

/-- Does a stored package-type string belong to the closed enum? -/
def validPackageType (packageTypeStr : GoStr) : Bool :=
  (toPackageType packageTypeStr).isOk

/-- The single version entry `GetTagMetadata` builds from one valid tag. -/
def tagVersionMetadata (H : Helpers) (image registryURL : GoStr)
    (packageType : GoStr) (tag : types.TagMetadata) : artifactapi.ArtifactVersionMetadata :=
  { packageType := packageType
    name := tag.name
    size := H.getImageSize tag.size
    lastModified := H.getTimeInMs tag.modifiedAt
    digestCount := some tag.digestCount
    fileCount := none
    pullCommand := H.getPullCommand image tag.name tag.packageType registryURL
    downloadsCount := tag.downloadCount }

/-- The single version entry `GetNonOCIArtifactMetadata` builds from one
valid record. -/
def nonOCIVersionMetadata (H : Helpers) (image registryURL : GoStr)
    (packageType : GoStr) (tag : types.NonOCIArtifactMetadata) :
    artifactapi.ArtifactVersionMetadata :=
  { packageType := packageType
    name := tag.name
    size := H.getImageSize tag.size
    lastModified := H.getTimeInMs tag.modifiedAt
    digestCount := none
    fileCount := some tag.fileCount
    pullCommand := H.getPullCommand image tag.name tag.packageType registryURL
    downloadsCount := tag.downloadCount }

/-- A concrete instantiation of the external collaborators, used to evaluate
the mapper on concrete inputs. -/
def constHelpers : Helpers :=
  { getTimeInMs := fun t => t
    getSize := fun _ => str "0B"
    getImageSize := fun s => s
    getPullCommand := fun _ _ _ _ => str "pull"
    genericDownloadCommand := fun _ _ _ _ => str "generic-dl"
    mavenDownloadCommand := fun _ _ _ _ => str "maven-dl"
    registryURL := fun segments => segments.foldl (fun acc seg => acc ++ str "/" ++ seg) [] }

/-- On a single-character pattern, `replaceAllAux` is a character map (for
any sufficient fuel). -/
theorem replaceAllAux_singleton (c d : Char) :
    ∀ (fuel : Nat) (s : GoStr), s.length ≤ fuel →
      replaceAllAux [c] [d] fuel s = s.map fun x => if x = c then d else x := by
  intro fuel
  induction fuel with
  | zero =>
    intro s hs
    have : s = [] := List.length_eq_zero.mp (Nat.le_zero.mp hs)
    subst this
    simp [replaceAllAux]
  | succ n ih =>
    intro s hs
    match s with
    | [] => simp [replaceAllAux]
    | x :: rest =>
      have hrest : rest.length ≤ n := by
        simpa using Nat.le_of_succ_le_succ (by simpa using hs)
      by_cases hx : x = c
      · subst hx
        simp [replaceAllAux, List.isPrefixOf_cons₂, ih rest hrest]
      · have hp : (List.isPrefixOf [c] (x :: rest)) = false := by
          simp [List.isPrefixOf_cons₂]
          exact Ne.symm hx
        simp [replaceAllAux, hp, hx, ih rest hrest]

/-- On a single-character pattern, `replaceAll` is a character map. -/
theorem replaceAll_singleton (c d : Char) (s : GoStr) :
    replaceAll [c] [d] s = s.map fun x => if x = c then d else x :=
  replaceAllAux_singleton c d s.length s (Nat.le_refl _)

theorem mavenRewrite_eq_map (s : GoStr) : mavenRewrite s = s.map mavenChar := by
  have hdot : str "." = ['.'] := rfl
  have hcol : str ":" = [':'] := rfl
  have hsl : str "/" = ['/'] := rfl
  rw [mavenRewrite, hdot, hcol, hsl, replaceAll_singleton, replaceAll_singleton,
    List.map_map]
  refine List.map_congr_left fun x _ => ?_
  by_cases h1 : x = '.' <;> by_cases h2 : x = ':' <;>
    simp [mavenChar, Function.comp, h1, h2]

theorem mavenChar_idem (x : Char) : mavenChar (mavenChar x) = mavenChar x := by
  by_cases h1 : x = '.' <;> by_cases h2 : x = ':' <;> simp [mavenChar, h1, h2]

theorem mavenRewrite_idem (s : GoStr) :
    mavenRewrite (mavenRewrite s) = mavenRewrite s := by
  rw [mavenRewrite_eq_map, mavenRewrite_eq_map, List.map_map]
  exact List.map_congr_left fun x _ => mavenChar_idem x

theorem getArtifactFilesMetadata_not_maven (H : Helpers)
    (registryURL artifactName version packageType : GoStr)
    (hpt : packageType ≠ PackageTypeMAVEN) (files : List types.FileNodeMetadata) :
    GetArtifactFilesMetadata H files registryURL artifactName version packageType =
      files.map (plainFileDetail H registryURL artifactName version packageType) := by
  induction files with
  | nil => simp [GetArtifactFilesMetadata]
  | cons file rest ih =>
    by_cases hg : packageType = PackageTypeGENERIC
    · subst hg
      simp [GetArtifactFilesMetadata, ih, plainFileDetail, strippedName, filePathPrefixFor]
    · simp [GetArtifactFilesMetadata, hg, hpt, ih, plainFileDetail, strippedName,
        filePathPrefixFor]

theorem getArtifactFilesMetadata_maven (H : Helpers)
    (registryURL version : GoStr) (files : List types.FileNodeMetadata) :
    ∀ artifactName : GoStr,
      GetArtifactFilesMetadata H files registryURL artifactName version PackageTypeMAVEN =
        files.map (mavenFileDetail H registryURL (mavenRewrite artifactName) version) := by
  induction files with
  | nil => intro artifactName; simp [GetArtifactFilesMetadata]
  | cons file rest ih =>
    intro artifactName
    have hmg : PackageTypeMAVEN ≠ PackageTypeGENERIC := by decide
    simp only [GetArtifactFilesMetadata, List.map_cons, if_neg hmg]
    rw [if_pos trivial]
    congr 1
    show GetArtifactFilesMetadata H rest registryURL (mavenRewrite artifactName) version
        PackageTypeMAVEN = _
    rw [ih (mavenRewrite artifactName), mavenRewrite_idem]

theorem getArtifactMetadata_eq_map (H : Helpers)
    (artifacts : List types.ArtifactMetadata) (rootIdentifier : GoStr) :
    GetArtifactMetadata H artifacts rootIdentifier =
      artifacts.map fun artifact =>
        mapToArtifactMetadata H artifact (resolvedRegistryURL H rootIdentifier artifact) := by
  induction artifacts with
  | nil => rfl
  | cons artifact rest ih =>
    by_cases hg : artifact.packageType = PackageTypeGENERIC <;>
      simp [GetArtifactMetadata, hg, ih, resolvedRegistryURL]

theorem getRegistryArtifactMetadata_eq_map (H : Helpers)
    (artifacts : List types.ArtifactMetadata) :
    GetRegistryArtifactMetadata H artifacts =
      artifacts.map (mapToRegistryArtifactMetadata H) := by
  induction artifacts with
  | nil => rfl
  | cons artifact rest ih => simp [GetRegistryArtifactMetadata, ih]

theorem getTagMetadata_append (H : Helpers) (image registryURL : GoStr)
    (l1 l2 : List types.TagMetadata) :
    GetTagMetadata H (l1 ++ l2) image registryURL =
      GetTagMetadata H l1 image registryURL ++ GetTagMetadata H l2 image registryURL := by
  induction l1 with
  | nil => rfl
  | cons tag rest ih =>
    simp only [List.cons_append, GetTagMetadata]
    cases htp : toPackageType tag.packageType with
    | error e => simpa [htp] using ih
    | ok pt => simpa [htp] using ih

theorem getTagMetadata_skips_invalid (H : Helpers) (image registryURL : GoStr)
    (tag : types.TagMetadata) (rest : List types.TagMetadata)
    (h : validPackageType tag.packageType = false) :
    GetTagMetadata H (tag :: rest) image registryURL =
      GetTagMetadata H rest image registryURL := by
  simp only [GetTagMetadata]
  cases htp : toPackageType tag.packageType with
  | error e => simp [htp]
  | ok pt => simp [validPackageType, Except.isOk, Except.toBool, htp] at h

theorem getTagMetadata_length (H : Helpers) (image registryURL : GoStr)
    (l : List types.TagMetadata) :
    (GetTagMetadata H l image registryURL).length =
      (l.filter fun t => validPackageType t.packageType).length := by
  induction l with
  | nil => rfl
  | cons tag rest ih =>
    simp only [GetTagMetadata, List.filter]
    cases htp : toPackageType tag.packageType with
    | error e => simpa [validPackageType, Except.isOk, Except.toBool, htp] using ih
    | ok pt => simpa [validPackageType, Except.isOk, Except.toBool, htp] using ih

theorem getNonOCIArtifactMetadata_append (H : Helpers) (image registryURL : GoStr)
    (l1 l2 : List types.NonOCIArtifactMetadata) :
    GetNonOCIArtifactMetadata H (l1 ++ l2) image registryURL =
      GetNonOCIArtifactMetadata H l1 image registryURL ++
        GetNonOCIArtifactMetadata H l2 image registryURL := by
  induction l1 with
  | nil => rfl
  | cons tag rest ih =>
    simp only [List.cons_append, GetNonOCIArtifactMetadata]
    cases htp : toPackageType tag.packageType with
    | error e => simpa [htp] using ih
    | ok pt => simpa [htp] using ih

theorem getNonOCIArtifactMetadata_skips_invalid (H : Helpers) (image registryURL : GoStr)
    (tag : types.NonOCIArtifactMetadata) (rest : List types.NonOCIArtifactMetadata)
    (h : validPackageType tag.packageType = false) :
    GetNonOCIArtifactMetadata H (tag :: rest) image registryURL =
      GetNonOCIArtifactMetadata H rest image registryURL := by
  simp only [GetNonOCIArtifactMetadata]
  cases htp : toPackageType tag.packageType with
  | error e => simp [htp]
  | ok pt => simp [validPackageType, Except.isOk, Except.toBool, htp] at h

theorem getNonOCIArtifactMetadata_length (H : Helpers) (image registryURL : GoStr)
    (l : List types.NonOCIArtifactMetadata) :
    (GetNonOCIArtifactMetadata H l image registryURL).length =
      (l.filter fun t => validPackageType t.packageType).length := by
  induction l with
  | nil => rfl
  | cons tag rest ih =>
    simp only [GetNonOCIArtifactMetadata, List.filter]
    cases htp : toPackageType tag.packageType with
    | error e => simpa [validPackageType, Except.isOk, Except.toBool, htp] using ih
    | ok pt => simpa [validPackageType, Except.isOk, Except.toBool, htp] using ih

/-- If the pattern does not occur in the string, `replaceFirst` is the
identity. -/
theorem replaceFirst_of_not_contains (old new : GoStr) :
    ∀ s : GoStr, containsSub old s = false → replaceFirst old new s = s := by
  intro s
  induction s with
  | nil =>
    intro h
    simp only [containsSub] at h
    simp [replaceFirst, h]
  | cons c rest ih =>
    intro h
    simp only [containsSub, Bool.or_eq_false_iff] at h
    simp [replaceFirst, h.1, ih h.2]

/-- `replaceFirst` on a string that starts with the pattern replaces that
leading occurrence. -/
theorem replaceFirst_append_left (old new b : GoStr) :
    replaceFirst old new (old ++ b) = new ++ b := by
  cases old with
  | nil =>
    cases b with
    | nil => simp [replaceFirst]
    | cons x xs => simp [replaceFirst]
  | cons p ps =>
    have hpre : List.isPrefixOf (p :: ps) (p :: (ps ++ b)) = true :=
      List.isPrefixOf_iff_prefix.mpr ⟨b, rfl⟩
    show replaceFirst (p :: ps) new (p :: (ps ++ b)) = new ++ b
    simp only [replaceFirst]
    rw [if_pos hpre]
    simp [List.drop_left]

/-- `replaceFirst` replaces exactly the first occurrence of the pattern:
if no occurrence starts inside `a`, the occurrence sitting between `a` and
`b` is replaced and `b` (which may hold further occurrences) is kept. -/
theorem replaceFirst_first_occurrence (old new : GoStr) :
    ∀ a b : GoStr,
      (∀ k, k < a.length → List.isPrefixOf old ((a ++ old ++ b).drop k) = false) →
      replaceFirst old new (a ++ old ++ b) = a ++ new ++ b := by
  intro a
  induction a with
  | nil =>
    intro b _
    simpa using replaceFirst_append_left old new b
  | cons c a' ih =>
    intro b h
    have h0 : List.isPrefixOf old (c :: (a' ++ old ++ b)) = false := by
      simpa using h 0 (Nat.succ_pos _)
    show replaceFirst old new (c :: (a' ++ old ++ b)) = c :: (a' ++ new ++ b)
    simp only [replaceFirst]
    rw [if_neg (by simp only [h0]; exact Bool.false_ne_true)]
    refine congrArg (c :: ·) (ih b fun k hk => ?_)
    simpa using h (k + 1) (Nat.succ_lt_succ hk)

/-- `GetPageCount` is the lower adjoint characterising ceiling division:
`pageCount ≤ m` exactly when `m` pages of size `pageSize` hold all
`count` items. -/
theorem getPageCount_le_iff (count pageSize m : Nat) (hps : 0 < pageSize) :
    GetPageCount count pageSize ≤ m ↔ count ≤ m * pageSize := by
  unfold GetPageCount
  rw [Nat.div_le_iff_le_mul_add_pred hps, Nat.mul_comm pageSize m]
  generalize m * pageSize = t
  omega

/-- `GetPageCount` is the ceiling of the exact (rational) division. -/
theorem getPageCount_eq_ceil (count pageSize : Nat) (hps : 0 < pageSize) :
    GetPageCount count pageSize = ⌈(count : ℚ) / (pageSize : ℚ)⌉₊ := by
  have hq : (0 : ℚ) < (pageSize : ℚ) := by exact_mod_cast hps
  apply le_antisymm
  · rw [getPageCount_le_iff count pageSize _ hps]
    have h1 : (count : ℚ) / (pageSize : ℚ) ≤ (⌈(count : ℚ) / (pageSize : ℚ)⌉₊ : ℚ) :=
      Nat.le_ceil _
    have h2 : (count : ℚ) ≤ (⌈(count : ℚ) / (pageSize : ℚ)⌉₊ : ℚ) * pageSize :=
      (div_le_iff₀ hq).mp h1
    exact_mod_cast h2
  · apply Nat.ceil_le.mpr
    rw [div_le_iff₀ hq]
    exact_mod_cast (getPageCount_le_iff count pageSize (GetPageCount count pageSize) hps).mp
      (Nat.le_refl _)

/-! ### The claims -/

/-- C1: for MAVEN file records the resolver rewrites the artifact name by
replacing every '.' and every ':' with '/', rebuilds the prefix
"/" + rewrittenName + "/" + version + "/", and strips its first occurrence
from the stored path; artifact "com.example:mylib", version "1.0", path
"/com/example/mylib/1.0/mylib-1.0.jar" yields filename "mylib-1.0.jar". -/
theorem claim_C1 :
    (∀ (H : Helpers) (registryURL artifactName version : GoStr)
        (files : List types.FileNodeMetadata),
      (GetArtifactFilesMetadata H files registryURL artifactName version
          PackageTypeMAVEN).map (fun d => d.name) =
        files.map fun file =>
          replaceFirst
            (str "/" ++ mavenRewrite artifactName ++ str "/" ++ version ++ str "/")
            (str "") file.path)
    ∧ (∀ s : GoStr, mavenRewrite s =
        s.map fun x => if x = '.' then '/' else if x = ':' then '/' else x)
    ∧ mavenRewrite (str "com.example:mylib") = str "com/example/mylib"
    ∧ (GetArtifactFilesMetadata constHelpers
        [{ path := str "/com/example/mylib/1.0/mylib-1.0.jar", size := 0, sha512 := str ""
           sha256 := str "", sha1 := str "", md5 := str "", createdAt := 0 }]
        (str "http://r") (str "com.example:mylib") (str "1.0") PackageTypeMAVEN).map
        (fun d => d.name) = [str "mylib-1.0.jar"] := by
  refine ⟨?_, ?_, by decide, by decide⟩
  · intro H registryURL artifactName version files
    rw [getArtifactFilesMetadata_maven, List.map_map]
    rfl
  · intro s
    rw [mavenRewrite_eq_map]
    rfl

/-- C2: the filename is the stored path with only the first occurrence of
"/" + artifactName + "/" + version + "/" removed, and when the path does not
contain that prefix the removal is a no-op returning the path unchanged. -/
theorem claim_C2 :
    (∀ (H : Helpers) (registryURL artifactName version packageType : GoStr)
        (files : List types.FileNodeMetadata),
      packageType ≠ PackageTypeMAVEN →
      (GetArtifactFilesMetadata H files registryURL artifactName version packageType).map
          (fun d => d.name) =
        files.map fun file =>
          replaceFirst (filePathPrefixFor artifactName version) (str "") file.path)
    ∧ (∀ old new path : GoStr, containsSub old path = false →
        replaceFirst old new path = path)
    ∧ (∀ old new a b : GoStr,
        (∀ k, k < a.length → List.isPrefixOf old ((a ++ old ++ b).drop k) = false) →
        replaceFirst old new (a ++ old ++ b) = a ++ new ++ b) := by
  refine ⟨?_, fun old new path h => replaceFirst_of_not_contains old new path h,
    fun old new a b h => replaceFirst_first_occurrence old new a b h⟩
  intro H registryURL artifactName version packageType files hpt
  rw [getArtifactFilesMetadata_not_maven H registryURL artifactName version packageType hpt,
    List.map_map]
  rfl

theorem claim_C2_witness :
    (PackageTypeGENERIC ≠ PackageTypeMAVEN ∧
      (GetArtifactFilesMetadata constHelpers
          [{ path := str "/foo/1.0/bar.jar", size := 0, sha512 := str "", sha256 := str ""
             sha1 := str "", md5 := str "", createdAt := 0 }]
          (str "http://r") (str "foo") (str "1.0") PackageTypeGENERIC).map
          (fun d => d.name) = [str "bar.jar"])
    ∧ (containsSub (str "/foo/1.0/") (str "bar.jar") = false ∧
        replaceFirst (str "/foo/1.0/") (str "") (str "bar.jar") = str "bar.jar")
    ∧ ((∀ k, k < (str "a").length →
          List.isPrefixOf (str "b") ((str "a" ++ str "b" ++ str "b").drop k) = false) ∧
        replaceFirst (str "b") (str "z") (str "a" ++ str "b" ++ str "b") =
          str "a" ++ str "z" ++ str "b") := by
  refine ⟨⟨by decide, ?_⟩, ⟨by decide, ?_⟩, ⟨by decide, ?_⟩⟩
  · exact (claim_C2.1 constHelpers (str "http://r") (str "foo") (str "1.0")
      PackageTypeGENERIC _ (by decide)).trans (by decide)
  · exact claim_C2.2.1 (str "/foo/1.0/") (str "") (str "bar.jar") (by decide)
  · exact claim_C2.2.2 (str "b") (str "z") (str "a") (str "b") (by decide)

/-- C4: the checksum assembler always returns exactly the four entries
"SHA-512: ", "SHA-256: ", "SHA-1: ", "MD5: " followed by the respective
digest, in that order, even when digests are empty. -/
theorem claim_C4 (file : types.FileNodeMetadata) :
    getCheckSums file =
      [ str "SHA-512: " ++ file.sha512
      , str "SHA-256: " ++ file.sha256
      , str "SHA-1: " ++ file.sha1
      , str "MD5: " ++ file.md5 ]
    ∧ (getCheckSums file).length = 4 :=
  ⟨rfl, rfl⟩

/-- C5: the package-type validator round-trips on all four enum values and
rejects every other string with the invalid-package-type error. -/
theorem claim_C5 :
    (toPackageType PackageTypeDOCKER = .ok PackageTypeDOCKER ∧
      toPackageType PackageTypeGENERIC = .ok PackageTypeGENERIC ∧
      toPackageType PackageTypeHELM = .ok PackageTypeHELM ∧
      toPackageType PackageTypeMAVEN = .ok PackageTypeMAVEN)
    ∧ (∀ s : GoStr, s ≠ PackageTypeDOCKER → s ≠ PackageTypeGENERIC →
        s ≠ PackageTypeHELM → s ≠ PackageTypeMAVEN →
        toPackageType s = .error (str "invalid package type")) := by
  refine ⟨⟨rfl, rfl, rfl, rfl⟩, ?_⟩
  intro s h1 h2 h3 h4
  simp [toPackageType, h1, h2, h3, h4]

theorem claim_C5_witness :
    (str "NPM" ≠ PackageTypeDOCKER ∧ str "NPM" ≠ PackageTypeGENERIC ∧
      str "NPM" ≠ PackageTypeHELM ∧ str "NPM" ≠ PackageTypeMAVEN) ∧
    toPackageType (str "NPM") = .error (str "invalid package type") :=
  ⟨⟨by decide, by decide, by decide, by decide⟩,
    claim_C5.2 (str "NPM") (by decide) (by decide) (by decide) (by decide)⟩

/-- C3: in the tag and non-OCI version list mappers, an element whose
package-type string fails conversion is dropped from the output while every
valid sibling is kept (the output length is the number of valid elements),
and the mapping still returns the shorter list. -/
theorem claim_C3 :
    (∀ (H : Helpers) (image registryURL : GoStr) (pre post : List types.TagMetadata)
        (tag : types.TagMetadata),
      validPackageType tag.packageType = false →
      GetTagMetadata H (pre ++ tag :: post) image registryURL =
        GetTagMetadata H pre image registryURL ++ GetTagMetadata H post image registryURL)
    ∧ (∀ (H : Helpers) (image registryURL : GoStr) (tag : types.TagMetadata)
        (rest : List types.TagMetadata) (pt : GoStr),
      toPackageType tag.packageType = .ok pt →
      GetTagMetadata H (tag :: rest) image registryURL =
        tagVersionMetadata H image registryURL pt tag ::
          GetTagMetadata H rest image registryURL)
    ∧ (∀ (H : Helpers) (image registryURL : GoStr) (l : List types.TagMetadata),
      (GetTagMetadata H l image registryURL).length =
        (l.filter fun t => validPackageType t.packageType).length)
    ∧ (∀ (H : Helpers) (image registryURL : GoStr)
        (pre post : List types.NonOCIArtifactMetadata) (tag : types.NonOCIArtifactMetadata),
      validPackageType tag.packageType = false →
      GetNonOCIArtifactMetadata H (pre ++ tag :: post) image registryURL =
        GetNonOCIArtifactMetadata H pre image registryURL ++
          GetNonOCIArtifactMetadata H post image registryURL)
    ∧ (∀ (H : Helpers) (image registryURL : GoStr) (tag : types.NonOCIArtifactMetadata)
        (rest : List types.NonOCIArtifactMetadata) (pt : GoStr),
      toPackageType tag.packageType = .ok pt →
      GetNonOCIArtifactMetadata H (tag :: rest) image registryURL =
        nonOCIVersionMetadata H image registryURL pt tag ::
          GetNonOCIArtifactMetadata H rest image registryURL)
    ∧ (∀ (H : Helpers) (image registryURL : GoStr) (l : List types.NonOCIArtifactMetadata),
      (GetNonOCIArtifactMetadata H l image registryURL).length =
        (l.filter fun t => validPackageType t.packageType).length) := by
  refine ⟨?_, ?_, fun H i u l => getTagMetadata_length H i u l, ?_, ?_,
    fun H i u l => getNonOCIArtifactMetadata_length H i u l⟩
  · intro H image registryURL pre post tag h
    rw [getTagMetadata_append, getTagMetadata_skips_invalid H image registryURL tag post h]
  · intro H image registryURL tag rest pt h
    simp [GetTagMetadata, h, tagVersionMetadata]
  · intro H image registryURL pre post tag h
    rw [getNonOCIArtifactMetadata_append,
      getNonOCIArtifactMetadata_skips_invalid H image registryURL tag post h]
  · intro H image registryURL tag rest pt h
    simp [GetNonOCIArtifactMetadata, h, nonOCIVersionMetadata]

theorem claim_C3_witness :
    (validPackageType (str "NPM") = false ∧
      GetTagMetadata constHelpers
          ([⟨str "v1", str "10", 1, 2, 3, str "DOCKER"⟩] ++
            ⟨str "v2", str "10", 1, 2, 3, str "NPM"⟩ ::
              [⟨str "v3", str "10", 1, 2, 3, str "HELM"⟩])
          (str "img") (str "u") =
        GetTagMetadata constHelpers [⟨str "v1", str "10", 1, 2, 3, str "DOCKER"⟩]
            (str "img") (str "u") ++
          GetTagMetadata constHelpers [⟨str "v3", str "10", 1, 2, 3, str "HELM"⟩]
            (str "img") (str "u"))
    ∧ (GetTagMetadata constHelpers
          [⟨str "v1", str "10", 1, 2, 3, str "DOCKER"⟩,
            ⟨str "v2", str "10", 1, 2, 3, str "NPM"⟩,
            ⟨str "v3", str "10", 1, 2, 3, str "HELM"⟩]
          (str "img") (str "u")).length = 2
    ∧ (validPackageType (str "RPM") = false ∧
        GetNonOCIArtifactMetadata constHelpers
            ([] ++ ⟨str "w1", str "9", 4, 5, 6, str "RPM"⟩ ::
              [⟨str "w2", str "9", 4, 5, 6, str "MAVEN"⟩])
            (str "img") (str "u") =
          GetNonOCIArtifactMetadata constHelpers [] (str "img") (str "u") ++
            GetNonOCIArtifactMetadata constHelpers [⟨str "w2", str "9", 4, 5, 6, str "MAVEN"⟩]
              (str "img") (str "u"))
    ∧ (GetNonOCIArtifactMetadata constHelpers
          [⟨str "w1", str "9", 4, 5, 6, str "RPM"⟩, ⟨str "w2", str "9", 4, 5, 6, str "MAVEN"⟩]
          (str "img") (str "u")).length = 1 := by
  refine ⟨⟨by decide, ?_⟩, ?_, ⟨by decide, ?_⟩, ?_⟩
  · exact claim_C3.1 constHelpers (str "img") (str "u")
      [⟨str "v1", str "10", 1, 2, 3, str "DOCKER"⟩]
      [⟨str "v3", str "10", 1, 2, 3, str "HELM"⟩]
      ⟨str "v2", str "10", 1, 2, 3, str "NPM"⟩ (by decide)
  · exact (claim_C3.2.2.1 constHelpers (str "img") (str "u") _).trans (by decide)
  · exact claim_C3.2.2.2.1 constHelpers (str "img") (str "u") []
      [⟨str "w2", str "9", 4, 5, 6, str "MAVEN"⟩]
      ⟨str "w1", str "9", 4, 5, 6, str "RPM"⟩ (by decide)
  · exact (claim_C3.2.2.2.2.2 constHelpers (str "img") (str "u") _).trans (by decide)

/-- C6: the artifact-metadata list mapper uses the URL with an extra
"generic" segment before the repository name exactly for GENERIC artifacts,
and the plain root-plus-repository URL for every other package type. -/
theorem claim_C6 (H : Helpers) (artifacts : List types.ArtifactMetadata)
    (rootIdentifier : GoStr) :
    GetArtifactMetadata H artifacts rootIdentifier =
      artifacts.map fun artifact =>
        mapToArtifactMetadata H artifact
          (if artifact.packageType = PackageTypeGENERIC then
            H.registryURL [rootIdentifier, str "generic", artifact.repoName]
          else H.registryURL [rootIdentifier, artifact.repoName]) := by
  rw [getArtifactMetadata_eq_map]
  rfl

/-- C7: every response envelope carries
page count = ceiling(item count / page size) when the page size is positive;
25 items with page size 10 give 3 pages and 0 items give 0 pages. -/
theorem claim_C7 :
    (∀ (H : Helpers) (artifacts : Option (List types.ArtifactMetadata))
        (count pageNumber pageSize : Nat) (rootIdentifier : GoStr), 0 < pageSize →
      (GetAllArtifactResponse H artifacts count pageNumber pageSize
          rootIdentifier).data.pageCount = ⌈(count : ℚ) / (pageSize : ℚ)⌉₊)
    ∧ (∀ (H : Helpers) (files : Option (List types.FileNodeMetadata))
        (count pageNumber pageSize : Nat)
        (registryURL artifactName version packageType : GoStr), 0 < pageSize →
      (GetAllArtifactFilesResponse H files count pageNumber pageSize registryURL
          artifactName version packageType).pageCount = ⌈(count : ℚ) / (pageSize : ℚ)⌉₊)
    ∧ (∀ (H : Helpers) (artifacts : Option (List types.ArtifactMetadata))
        (count pageNumber pageSize : Nat), 0 < pageSize →
      (GetAllArtifactByRegistryResponse H artifacts count pageNumber
          pageSize).data.pageCount = ⌈(count : ℚ) / (pageSize : ℚ)⌉₊)
    ∧ (∀ (labels : List GoStr) (count pageNumber pageSize : Nat), 0 < pageSize →
      (GetAllArtifactLabelsResponse labels count pageNumber pageSize).data.pageCount =
        ⌈(count : ℚ) / (pageSize : ℚ)⌉₊)
    ∧ (∀ (H : Helpers) (tags : List types.TagMetadata) (image : GoStr)
        (count pageNumber pageSize : Nat) (registryURL : GoStr), 0 < pageSize →
      (GetAllArtifactVersionResponse H tags image count pageNumber pageSize
          registryURL).data.pageCount = ⌈(count : ℚ) / (pageSize : ℚ)⌉₊)
    ∧ (∀ (H : Helpers) (artifacts : List types.NonOCIArtifactMetadata) (image : GoStr)
        (count pageNumber pageSize : Nat) (registryURL : GoStr), 0 < pageSize →
      (GetNonOCIAllArtifactVersionResponse H artifacts image count pageNumber pageSize
          registryURL).data.pageCount = ⌈(count : ℚ) / (pageSize : ℚ)⌉₊)
    ∧ GetPageCount 25 10 = 3
    ∧ (∀ pageSize : Nat, 0 < pageSize → GetPageCount 0 pageSize = 0) := by
  refine ⟨fun H a count pn ps r h => getPageCount_eq_ceil count ps h,
    fun H f count pn ps u n v p h => getPageCount_eq_ceil count ps h,
    fun H a count pn ps h => getPageCount_eq_ceil count ps h,
    fun l count pn ps h => getPageCount_eq_ceil count ps h,
    fun H t i count pn ps u h => getPageCount_eq_ceil count ps h,
    fun H a i count pn ps u h => getPageCount_eq_ceil count ps h,
    by decide, ?_⟩
  intro pageSize h
  unfold GetPageCount
  exact Nat.div_eq_of_lt (by omega)

theorem claim_C7_witness :
    (0 < 10 ∧
      (GetAllArtifactResponse constHelpers none 25 1 10 (str "root")).data.pageCount = 3)
    ∧ (0 < 7 ∧ GetPageCount 0 7 = 0) := by
  constructor
  · refine ⟨by decide, ?_⟩
    rw [claim_C7.1 constHelpers none 25 1 10 (str "root") (by decide)]
    have h25 : ((25 : Nat) : ℚ) = 25 := by norm_num
    have h10 : ((10 : Nat) : ℚ) = 10 := by norm_num
    rw [h25, h10]
    apply le_antisymm
    · exact Nat.ceil_le.mpr (by norm_num)
    · have h2 : (2 : Nat) < ⌈(25 : ℚ) / 10⌉₊ := Nat.lt_ceil.mpr (by norm_num)
      omega
  · exact ⟨by decide, claim_C7.2.2.2.2.2.2.2 7 (by decide)⟩

/-- C8: the file-detail download command is chosen by package type: the
generic formatter for GENERIC, the Maven formatter (on the rewritten name)
for MAVEN, and the empty string for every other package type. -/
theorem claim_C8 (H : Helpers) (registryURL artifactName version packageType : GoStr)
    (files : List types.FileNodeMetadata) :
    (GetArtifactFilesMetadata H files registryURL artifactName version packageType).map
        (fun d => d.downloadCommand) =
      files.map fun file =>
        if packageType = PackageTypeGENERIC then
          H.genericDownloadCommand registryURL artifactName version
            (strippedName artifactName version file)
        else if packageType = PackageTypeMAVEN then
          H.mavenDownloadCommand registryURL (mavenRewrite artifactName) version
            (strippedName (mavenRewrite artifactName) version file)
        else str "" := by
  by_cases hm : packageType = PackageTypeMAVEN
  · subst hm
    rw [getArtifactFilesMetadata_maven, List.map_map]
    refine List.map_congr_left fun file _ => ?_
    have hmg : PackageTypeMAVEN ≠ PackageTypeGENERIC := by decide
    rw [if_neg hmg, if_pos rfl]
    rfl
  · rw [getArtifactFilesMetadata_not_maven H registryURL artifactName version packageType hm,
      List.map_map]
    refine List.map_congr_left fun file _ => ?_
    by_cases hg : packageType = PackageTypeGENERIC
    · rw [if_pos hg]
      show (if packageType = PackageTypeGENERIC then
        H.genericDownloadCommand registryURL artifactName version
          (strippedName artifactName version file) else str "") = _
      rw [if_pos hg]
    · rw [if_neg hg, if_neg hm]
      show (if packageType = PackageTypeGENERIC then
        H.genericDownloadCommand registryURL artifactName version
          (strippedName artifactName version file) else str "") = _
      rw [if_neg hg]

/-- C9: with a nil input list pointer, the artifact-list, file-list, and
registry-artifact-list envelope builders return an empty items list together
with the supplied pagination fields and a SUCCESS status. -/
theorem claim_C9 (H : Helpers) (count pageNumber pageSize : Nat)
    (rootIdentifier registryURL artifactName version packageType : GoStr) :
    ((GetAllArtifactResponse H none count pageNumber pageSize
        rootIdentifier).data.artifacts = []
      ∧ (GetAllArtifactResponse H none count pageNumber pageSize
          rootIdentifier).data.itemCount = count
      ∧ (GetAllArtifactResponse H none count pageNumber pageSize
          rootIdentifier).data.pageIndex = pageNumber
      ∧ (GetAllArtifactResponse H none count pageNumber pageSize
          rootIdentifier).data.pageSize = pageSize
      ∧ (GetAllArtifactResponse H none count pageNumber pageSize
          rootIdentifier).status = StatusSUCCESS)
    ∧ ((GetAllArtifactFilesResponse H none count pageNumber pageSize registryURL
          artifactName version packageType).files = []
      ∧ (GetAllArtifactFilesResponse H none count pageNumber pageSize registryURL
          artifactName version packageType).itemCount = count
      ∧ (GetAllArtifactFilesResponse H none count pageNumber pageSize registryURL
          artifactName version packageType).pageIndex = pageNumber
      ∧ (GetAllArtifactFilesResponse H none count pageNumber pageSize registryURL
          artifactName version packageType).pageSize = pageSize
      ∧ (GetAllArtifactFilesResponse H none count pageNumber pageSize registryURL
          artifactName version packageType).status = StatusSUCCESS)
    ∧ ((GetAllArtifactByRegistryResponse H none count pageNumber
          pageSize).data.artifacts = []
      ∧ (GetAllArtifactByRegistryResponse H none count pageNumber
          pageSize).data.itemCount = count
      ∧ (GetAllArtifactByRegistryResponse H none count pageNumber
          pageSize).data.pageIndex = pageNumber
      ∧ (GetAllArtifactByRegistryResponse H none count pageNumber
          pageSize).data.pageSize = pageSize
      ∧ (GetAllArtifactByRegistryResponse H none count pageNumber
          pageSize).status = StatusSUCCESS) :=
  ⟨⟨rfl, rfl, rfl, rfl, rfl⟩, ⟨rfl, rfl, rfl, rfl, rfl⟩, ⟨rfl, rfl, rfl, rfl, rfl⟩⟩

/-- C10: the artifact-metadata and registry-artifact-metadata list mappers
preserve the input length: no validation, no element dropped. -/
theorem claim_C10 (H : Helpers) (artifacts : List types.ArtifactMetadata)
    (rootIdentifier : GoStr) :
    (GetArtifactMetadata H artifacts rootIdentifier).length = artifacts.length
    ∧ (GetRegistryArtifactMetadata H artifacts).length = artifacts.length := by
  constructor
  · rw [getArtifactMetadata_eq_map, List.length_map]
  · rw [getRegistryArtifactMetadata_eq_map, List.length_map]

end ArtifactMapper
